import Mathlib

/-!
Verification development for the `order_processing_incremental` pipeline
(`src/order_processing_incremental.py`): a shallow embedding of the Airflow
DAG's data model, SQL stages and the Python archiver, together with proofs
about the embedded operations.

Modelling conventions:
* BigQuery `TIMESTAMP` values are modelled at the granularity the queries
  use: a day, an hour within the day, and an opaque sub-hour remainder.
* `FLOAT` money amounts are modelled as rationals (`ℚ`).
* SQL `NULL` is modelled with `Option`.
* The staging table, fact table, findings table, aggregate table and the
  GCS bucket are modelled as lists of rows / objects.
-/

namespace EcommPipeline

/-- A timestamp at the granularity used by the pipeline's queries:
`DATE(ts)` is `day`, `EXTRACT(HOUR FROM ts)` is `hour`, and `rest` is the
sub-hour remainder (minutes/seconds), zeroed by `TIMESTAMP_TRUNC(ts, HOUR)`. -/
structure Timestamp where
  day : Nat
  hour : Nat
  rest : Nat
  deriving DecidableEq, Repr

/-- Models `TIMESTAMP_TRUNC(ts, HOUR)`. -/
def truncHour (t : Timestamp) : Timestamp :=
  { day := t.day, hour := t.hour, rest := 0 }

/-- One element of the `items` REPEATED RECORD of a staged order. -/
structure LineItem where
  product_id : String
  quantity : Int
  unit_price : ℚ
  deriving DecidableEq, Repr

/-- The nullable `shipping_address` RECORD of a staged order. -/
structure ShippingAddress where
  street : String
  city : String
  state : String
  zipcode : String
  country : String
  deriving DecidableEq, Repr

/-- A row of `staging_orders`, following the load schema of
`load_orders_to_staging`. -/
structure Order where
  order_id : String
  customer_id : String
  order_timestamp : Timestamp
  items : List LineItem
  total_amount : ℚ
  payment_status : String
  shipping_address : Option ShippingAddress
  deriving DecidableEq, Repr

/-- A row of `fact_orders`, following the column list of
`transform_to_fact_orders`.  Columns coming from the unnested item or from
dimension lookups are nullable. -/
structure FactOrderLine where
  order_id : String
  customer_id : String
  customer_tier : String
  order_timestamp : Timestamp
  order_date : Nat
  order_hour : Nat
  product_id : Option String
  product_name : Option String
  category : Option String
  quantity : Option Int
  unit_price : Option ℚ
  line_total : Option ℚ
  total_amount : ℚ
  payment_status : String
  city : Option String
  state : Option String
  country : Option String
  region : String
  deriving DecidableEq, Repr

/-- A row of `data_quality_checks` as written by `check_amount_mismatch`
(`check_id`, a fresh UUID from `GENERATE_UUID()`, is external randomness and
is not modelled). -/
structure QualityFinding where
  check_timestamp : String
  check_type : String
  order_id : String
  issue_description : String
  severity : String
  deriving DecidableEq, Repr

/-- A row of `agg_hourly_metrics`. -/
structure HourlyMetric where
  metric_hour : Timestamp
  total_orders : Nat
  total_revenue : ℚ
  avg_order_value : ℚ
  unique_customers : Nat
  updated_at : String
  deriving DecidableEq, Repr

/-- A GCS object: its full name and the newline-delimited order records it
contains. -/
structure GCSObject where
  name : String
  content : List Order
  deriving DecidableEq, Repr

/-- The configured `GCS_ORDER_PREFIX = 'landing/orders/'`. -/
def gcsOrderPfx : String := "landing/orders/"

/-- GCS name matching by leading characters, as the existence sensor does. -/
def strStartsWith (pfx s : String) : Bool :=
  pfx.toList.isPrefixOf s.toList

/-- GCS name matching by trailing characters (`str.endswith`). -/
def strEndsWithJson (s : String) : Bool :=
  ".json".toList.isSuffixOf s.toList

/-- A row of the `dim_products` lookup table (the columns read by the fact
transform). -/
structure DimProduct where
  product_name : String
  category : String
  deriving DecidableEq, Repr

section
attribute [local semireducible] Rat.add Rat.mul Rat.sub Rat.inv

/-! ## Task 1 — `check_new_order_files` (availability sensor) -/

/-- The `GCSObjectsWithPrefixExistenceSensor`: succeeds as soon as at least one
object whose name starts with `GCS_ORDER_PREFIX` exists.  The sensor matches
by prefix only; it does not look at the suffix. -/
def sensorSuccess (objs : List GCSObject) : Bool :=
  objs.any fun b => strStartsWith gcsOrderPfx b.name

/-! ## Task 2 — `load_orders_to_staging` (batch loader) -/

/-- Membership in the loader's source pattern `landing/orders/*.json`. -/
def inLoadSet (b : GCSObject) : Bool :=
  strStartsWith gcsOrderPfx b.name && strEndsWithJson b.name

/-- The load set: the objects currently matching `landing/orders/*.json`. -/
def loadSet (objs : List GCSObject) : List GCSObject :=
  objs.filter inLoadSet

/-- The records appended to `staging_orders` by the load
(`WRITE_APPEND`): every record of every object of the load set. -/
def loadedOrders (objs : List GCSObject) : List Order :=
  (loadSet objs).flatMap GCSObject.content

/-! ## Task 3 — `check_duplicate_orders` (blocking duplicate check) -/

/-- The staged rows with `DATE(order_timestamp) = CURRENT_DATE()`, the
window every SQL stage restricts itself to. -/
def todaysRows (today : Nat) (staging : List Order) : List Order :=
  staging.filter fun o => o.order_timestamp.day == today

/-- Task `check_duplicate_orders`: `SELECT COUNT(*) = 0` over the groups of
today's staged rows by `order_id` `HAVING cnt > 1`.  Returns `true` when the
`BigQueryCheckOperator` passes (no duplicate), `false` when it fails the
run. -/
def checkDuplicates (today : Nat) (staging : List Order) : Bool :=
  let ids := (todaysRows today staging).map Order.order_id
  ids.all fun id => decide (ids.count id ≤ 1)

/-! ## Task 4 — `check_amount_mismatch` (non-blocking consistency check) -/

/-- The `0.01` tolerance of the consistency check. -/
def tol : ℚ := 1 / 100

/-- BigQuery `ROUND(x, 2)`.  (`ROUND` rounds half away from zero;
`round` rounds half up — the two agree except at negative half-cent
values.) -/
def round2 (q : ℚ) : ℚ :=
  (round (q * 100) : ℤ) / 100

/-- The sum `SUM(quantity * unit_price)` over a list of line items. -/
def itemsTotal (items : List LineItem) : ℚ :=
  (items.map fun i => (i.quantity : ℚ) * i.unit_price).sum

/-- The subselect `ROUND((SELECT SUM(quantity * unit_price) FROM
UNNEST(items)), 2)`.  SQL `SUM` over zero rows is `NULL`, so an order with
an empty `items` array yields `none`, not `0`. -/
def calculatedTotal (o : Order) : Option ℚ :=
  match o.items with
  | [] => none
  | _ :: _ => some (round2 (itemsTotal o.items))

/-- The finding row written for a mismatching order (`check_id`, a fresh
`GENERATE_UUID()` value, is external randomness and is not modelled). -/
def mismatchFinding (now : String) (o : Order) (ct : ℚ) : QualityFinding :=
  { check_timestamp := now
    check_type := "amount_mismatch"
    order_id := o.order_id
    issue_description :=
      "Calculated: " ++ toString ct ++ " vs Recorded: " ++ toString o.total_amount
    severity := "warning" }

/-- Whether a staged row satisfies the `WHERE ABS(calculated_total -
total_amount) > 0.01` filter.  A `NULL` `calculated_total` (zero line
items) never satisfies it. -/
def isMismatch (o : Order) : Bool :=
  match calculatedTotal o with
  | none => false
  | some ct => decide (|ct - o.total_amount| > tol)

/-- Task `check_amount_mismatch`: the rows inserted into `data_quality_checks`,
one per staged row of today's window passing the mismatch filter. -/
def mismatchFindings (today : Nat) (now : String) (staging : List Order) :
    List QualityFinding :=
  (todaysRows today staging).filterMap fun o =>
    match calculatedTotal o with
    | none => none
    | some ct =>
      if |ct - o.total_amount| > tol then some (mismatchFinding now o ct) else none

/-! ## Task 5 — `transform_to_fact_orders` (fact merge) -/

/-- The `CASE` expression deriving `region` from `shipping_address.state`
(a `NULL` state falls through to `ELSE 'Other'`). -/
def regionOf (st : Option String) : String :=
  match st with
  | some s =>
    if s = "CA" ∨ s = "OR" ∨ s = "WA" then "West"
    else if s = "NY" ∨ s = "NJ" ∨ s = "PA" then "East"
    else if s = "TX" ∨ s = "AZ" ∨ s = "NM" then "South"
    else "Other"
  | none => "Other"

/-- The join `LEFT JOIN UNNEST(o.items) AS item`: one joined row per item, and one
row with a `NULL` item when the array is empty. -/
def unnestLeft (items : List LineItem) : List (Option LineItem) :=
  match items with
  | [] => [none]
  | i :: is => (i :: is).map some

/-- One `fact_orders` row for a staged order and one (possibly `NULL`)
unnested item, with the keyed dimension lookups `dim_customers`
(`COALESCE(customer_tier, 'bronze')`) and `dim_products` as left joins. -/
def factRow (dimC : String → Option String) (dimP : String → Option DimProduct)
    (o : Order) (item : Option LineItem) : FactOrderLine :=
  let pr := item.bind fun it => dimP it.product_id
  { order_id := o.order_id
    customer_id := o.customer_id
    customer_tier := (dimC o.customer_id).getD "bronze"
    order_timestamp := o.order_timestamp
    order_date := o.order_timestamp.day
    order_hour := o.order_timestamp.hour
    product_id := item.map fun it => it.product_id
    product_name := pr.map fun p => p.product_name
    category := pr.map fun p => p.category
    quantity := item.map fun it => it.quantity
    unit_price := item.map fun it => it.unit_price
    line_total := item.map fun it => (it.quantity : ℚ) * it.unit_price
    total_amount := o.total_amount
    payment_status := o.payment_status
    city := o.shipping_address.map fun a => a.city
    state := o.shipping_address.map fun a => a.state
    country := o.shipping_address.map fun a => a.country
    region := regionOf (o.shipping_address.map fun a => a.state) }

/-- The `NOT EXISTS (SELECT 1 FROM fact_orders f WHERE f.order_id =
o.order_id)` existence probe, non-negated. -/
def existsInFact (facts : List FactOrderLine) (oid : String) : Bool :=
  facts.any fun f => f.order_id == oid

/-- The rows the `INSERT INTO fact_orders ... SELECT` statement produces:
today's staged orders whose `order_id` is absent from the (pre-insert) fact
store, each contributing one row per unnested item. -/
def transformToFact (today : Nat) (dimC : String → Option String)
    (dimP : String → Option DimProduct) (facts : List FactOrderLine)
    (staging : List Order) : List FactOrderLine :=
  (staging.filter fun o =>
      (o.order_timestamp.day == today) && !existsInFact facts o.order_id).flatMap
    fun o => (unnestLeft o.items).map (factRow dimC dimP o)

/-- The fact store after the insert. -/
def factMerge (today : Nat) (dimC : String → Option String)
    (dimP : String → Option DimProduct) (facts : List FactOrderLine)
    (staging : List Order) : List FactOrderLine :=
  facts ++ transformToFact today dimC dimP facts staging

/-! ## Task 6 — `update_hourly_aggregations` (aggregate upsert) -/

/-- The distinct `TIMESTAMP_TRUNC(order_timestamp, HOUR)` keys of a set of
fact rows, in order of first appearance (`GROUP BY metric_hour`). -/
def hourKeys (rows : List FactOrderLine) : List Timestamp :=
  (rows.map fun f => truncHour f.order_timestamp).dedup

/-- One source row of the `MERGE`: the aggregates of the fact rows of one
hour.  `total_revenue` is `SUM(total_amount)` and `avg_order_value` is
`AVG(total_amount)` over the (per-line-item) fact rows of the group;
`total_orders` and `unique_customers` are `COUNT(DISTINCT ...)`. -/
def hourlyRow (now : String) (rows : List FactOrderLine) (h : Timestamp) :
    HourlyMetric :=
  let g := rows.filter fun f => decide (truncHour f.order_timestamp = h)
  { metric_hour := h
    total_orders := (g.map fun f => f.order_id).dedup.length
    total_revenue := (g.map fun f => f.total_amount).sum
    avg_order_value := (g.map fun f => f.total_amount).sum / (g.length : ℚ)
    unique_customers := (g.map fun f => f.customer_id).dedup.length
    updated_at := now }

/-- The `USING` subquery of the `MERGE`: per-hour aggregates of the fact
rows with `DATE(order_timestamp) = CURRENT_DATE()`. -/
def hourlySource (today : Nat) (now : String) (facts : List FactOrderLine) :
    List HourlyMetric :=
  let rows := facts.filter fun f => f.order_timestamp.day == today
  (hourKeys rows).map (hourlyRow now rows)

/-- The `MERGE` on `agg_hourly_metrics`: a matched target row is updated to
the source row's metric values (with `updated_at` refreshed), an unmatched
source row is inserted. -/
def updateHourlyAgg (today : Nat) (now : String) (facts : List FactOrderLine)
    (hourly : List HourlyMetric) : List HourlyMetric :=
  let src := hourlySource today now facts
  (hourly.map fun t =>
      (src.find? fun s => decide (s.metric_hour = t.metric_hour)).getD t)
    ++ src.filter fun s => !hourly.any fun t => decide (t.metric_hour = s.metric_hour)

/-! ## Task 7 — `archive_processed_files` (archiver) -/

/-- The archive name produced by
`blob.name.replace('landing/', f'archive/{timestamp}/')`.  The blobs the
archiver renames are enumerated under `landing/orders/`, where the pattern
`landing/` occurs exactly once, at the head of the name, which is the
occurrence this model substitutes. -/
def archiveName (ts : String) (n : String) : String :=
  if strStartsWith "landing/" n then
    "archive/" ++ ts ++ "/" ++ String.mk (n.toList.drop 8)
  else n

/-! ## The DAG -/

/-- The durable stores and the bucket, before or after a run. -/
structure PipelineState where
  landing : List GCSObject
  archive : List GCSObject
  staging : List Order
  facts : List FactOrderLine
  findings : List QualityFinding
  hourly : List HourlyMetric
  deriving DecidableEq, Repr

/-- The outcome of one scheduled run. -/
structure RunResult where
  state : PipelineState
  failed : Bool
  reachedFactMerge : Bool
  deriving DecidableEq, Repr

/-- One scheduled run of the DAG
`check_new_files >> load_to_staging >> [check_duplicates,
check_amount_mismatch] >> transform_to_fact >> update_hourly_agg >>
archive_files`.  `today` is `CURRENT_DATE()` and `now` the run's wall-clock
timestamp.  `midArrivals` are objects landing in the bucket after the
loader enumerated its load set and before the archiver lists the bucket
again; the archiver re-lists `landing/orders/` instead of reusing the load
set, so it also picks these up.  Both quality checks run after the load;
a duplicate fails the run before the fact insert, while mismatch findings
are recorded without blocking. -/
def runPipeline (today : Nat) (now : String) (dimC : String → Option String)
    (dimP : String → Option DimProduct) (st : PipelineState)
    (midArrivals : List GCSObject) : RunResult :=
  if sensorSuccess st.landing then
    let staged := st.staging ++ loadedOrders st.landing
    let findings2 := st.findings ++ mismatchFindings today now staged
    if checkDuplicates today staged then
      let facts2 := factMerge today dimC dimP st.facts staged
      let hourly2 := updateHourlyAgg today now facts2 st.hourly
      let allLanding := st.landing ++ midArrivals
      { state :=
          { landing := allLanding.filter fun b => !inLoadSet b
            archive := st.archive ++ (allLanding.filter inLoadSet).map fun b =>
              { b with name := archiveName now b.name }
            staging := staged
            facts := facts2
            findings := findings2
            hourly := hourly2 }
        failed := false
        reachedFactMerge := true }
    else
      { state :=
          { st with
            landing := st.landing ++ midArrivals
            staging := staged
            findings := findings2 }
        failed := true
        reachedFactMerge := false }
  else
    { state := { st with landing := st.landing ++ midArrivals }
      failed := true
      reachedFactMerge := false }

/-! ## Concrete fixtures -/

/-- A customer dimension with no rows (every lookup misses). -/
def dimC0 : String → Option String := fun _ => none

/-- A product dimension with no rows (every lookup misses). -/
def dimP0 : String → Option DimProduct := fun _ => none

/-- A line item worth 60. -/
def itemA : LineItem := ⟨"P1", 2, 30⟩

/-- A line item worth 40. -/
def itemB : LineItem := ⟨"P2", 1, 40⟩

/-- An order with two line items summing to its recorded total of 100. -/
def ordO1 : Order := ⟨"O1", "C1", ⟨0, 10, 0⟩, [itemA, itemB], 100, "completed", none⟩

/-- An order with one line item summing to its recorded total of 40. -/
def ordO2 : Order := ⟨"O2", "C2", ⟨0, 10, 0⟩, [itemB], 40, "completed", none⟩

/-- An order with zero line items and a recorded total of 100. -/
def ordZero100 : Order := ⟨"OZ1", "C3", ⟨0, 9, 0⟩, [], 100, "completed", none⟩

/-- An order with zero line items and a recorded total of 50. -/
def ordZero50 : Order := ⟨"OZ2", "C4", ⟨0, 9, 0⟩, [], 50, "completed", none⟩

/-- An order whose items sum to 45 but whose recorded total is 50. -/
def ordMism : Order := ⟨"O3", "C5", ⟨0, 11, 0⟩, [⟨"P3", 3, 15⟩], 50, "completed", none⟩

/-- A landed order file containing `ordO1`. -/
def objA : GCSObject := ⟨"landing/orders/a.json", [ordO1]⟩

/-- A landed order file containing `ordO2`. -/
def objB : GCSObject := ⟨"landing/orders/b.json", [ordO2]⟩

/-- A landed non-JSON object under the orders area. -/
def objTxt : GCSObject := ⟨"landing/orders/keepme.txt", []⟩

/-- The number of fact rows with a given `order_id` in a list. -/
def countOrderId (oid : String) (l : List FactOrderLine) : Nat :=
  l.countP fun f => f.order_id == oid

/-! ## Helper lemmas -/

lemma unnestLeft_ne_nil (items : List LineItem) : unnestLeft items ≠ [] := by
  cases items <;> simp [unnestLeft]

lemma unnestLeft_length (items : List LineItem) :
    (unnestLeft items).length = max 1 items.length := by
  cases items with
  | nil => simp [unnestLeft]
  | cons i is => simp [unnestLeft, Nat.max_eq_right (Nat.succ_le_succ (Nat.zero_le _))]

lemma factRow_order_id (dimC : String → Option String) (dimP : String → Option DimProduct)
    (o : Order) (item : Option LineItem) :
    (factRow dimC dimP o item).order_id = o.order_id := rfl

lemma existsInFact_append (a b : List FactOrderLine) (oid : String) :
    existsInFact (a ++ b) oid = (existsInFact a oid || existsInFact b oid) := by
  simp [existsInFact, List.any_append]

lemma mem_transformToFact {today : Nat} {dimC : String → Option String}
    {dimP : String → Option DimProduct} {facts : List FactOrderLine}
    {staging : List Order} {f : FactOrderLine}
    (h : f ∈ transformToFact today dimC dimP facts staging) :
    ∃ o ∈ staging, (o.order_timestamp.day == today) = true
      ∧ existsInFact facts o.order_id = false ∧ f.order_id = o.order_id := by
  unfold transformToFact at h
  obtain ⟨o, ho, hf⟩ := List.mem_flatMap.1 h
  obtain ⟨homem, hop⟩ := List.mem_filter.1 ho
  obtain ⟨x, _, hfx⟩ := List.mem_map.1 hf
  refine ⟨o, homem, ?_, ?_, ?_⟩
  · exact (Bool.and_eq_true_iff.1 hop).1
  · have := (Bool.and_eq_true_iff.1 hop).2
    simpa using this
  · rw [← hfx, factRow_order_id]

lemma existsInFact_transform_of_mem {today : Nat} {dimC : String → Option String}
    {dimP : String → Option DimProduct} {facts : List FactOrderLine}
    {staging : List Order} {o : Order} (hmem : o ∈ staging)
    (hday : (o.order_timestamp.day == today) = true)
    (hex : existsInFact facts o.order_id = false) :
    existsInFact (transformToFact today dimC dimP facts staging) o.order_id = true := by
  have hmemf : o ∈ staging.filter fun o2 =>
      (o2.order_timestamp.day == today) && !existsInFact facts o2.order_id := by
    refine List.mem_filter.2 ⟨hmem, ?_⟩
    simp [hday, hex]
  obtain ⟨x, hx⟩ : ∃ x, x ∈ unnestLeft o.items := by
    cases h : unnestLeft o.items with
    | nil => exact absurd h (unnestLeft_ne_nil o.items)
    | cons a l => exact ⟨a, by simp [h]⟩
  have hrow : factRow dimC dimP o x ∈ transformToFact today dimC dimP facts staging := by
    unfold transformToFact
    exact List.mem_flatMap.2 ⟨o, hmemf, List.mem_map_of_mem _ hx⟩
  exact List.any_eq_true.2 ⟨factRow dimC dimP o x, hrow, by simp [factRow_order_id]⟩

/-! ## Claims -/

/-- C1: re-running the Fact Merge insert over an unchanged window after a
previous successful run inserts zero additional rows into the fact store,
and a staged order whose `order_id` is already present in the fact store
contributes no fact rows. -/
theorem C1_fact_merge_idempotent (today : Nat) (dimC : String → Option String)
    (dimP : String → Option DimProduct) (facts : List FactOrderLine)
    (staging : List Order) :
    factMerge today dimC dimP (factMerge today dimC dimP facts staging) staging
      = factMerge today dimC dimP facts staging
    ∧ ∀ oid, existsInFact facts oid = true →
        countOrderId oid (transformToFact today dimC dimP facts staging) = 0 := by
  constructor
  · have hnil : transformToFact today dimC dimP
        (factMerge today dimC dimP facts staging) staging = [] := by
      unfold transformToFact
      have hfil : (staging.filter fun o => (o.order_timestamp.day == today)
          && !existsInFact (factMerge today dimC dimP facts staging) o.order_id) = [] := by
        refine List.filter_eq_nil_iff.2 fun o hmem => ?_
        by_cases hday : (o.order_timestamp.day == today) = true
        · have hex : existsInFact (factMerge today dimC dimP facts staging) o.order_id
              = true := by
            unfold factMerge
            rw [existsInFact_append]
            cases h : existsInFact facts o.order_id with
            | true => simp
            | false =>
              simp [existsInFact_transform_of_mem hmem hday h]
          simp [hday, hex]
        · simp [Bool.eq_false_iff.2 hday]
      rw [hfil]
      rfl
    show factMerge today dimC dimP facts staging
        ++ transformToFact today dimC dimP (factMerge today dimC dimP facts staging) staging
      = factMerge today dimC dimP facts staging
    rw [hnil, List.append_nil]
  · intro oid hex
    refine List.countP_eq_zero.2 fun f hf => ?_
    obtain ⟨o, _, _, hofree, hfo⟩ := mem_transformToFact hf
    intro hbeq
    have : o.order_id = oid := by
      have := eq_of_beq hbeq
      rw [← hfo]; exact this
    rw [this] at hofree
    rw [hofree] at hex
    exact Bool.false_ne_true hex

/-- Witness for C1 at a concrete store and window: an order already present
in the fact store contributes no fact rows on the re-run. -/
theorem C1_fact_merge_idempotent_witness :
    countOrderId "O1"
      (transformToFact 0 dimC0 dimP0 (transformToFact 0 dimC0 dimP0 [] [ordO1])
        [ordO1, ordO2]) = 0 :=
  (C1_fact_merge_idempotent 0 dimC0 dimP0 (transformToFact 0 dimC0 dimP0 [] [ordO1])
    [ordO1, ordO2]).2 "O1" (by decide)

lemma checkDuplicates_eq_false_of_dup {today : Nat} {staging : List Order} {oid : String}
    (h : 2 ≤ ((todaysRows today staging).map Order.order_id).count oid) :
    checkDuplicates today staging = false := by
  apply Bool.eq_false_iff.2
  intro hall
  unfold checkDuplicates at hall
  have hmem : oid ∈ (todaysRows today staging).map Order.order_id :=
    List.count_pos_iff.1 (lt_of_lt_of_le (by norm_num) h)
  have := List.all_eq_true.1 hall oid hmem
  have hle : ((todaysRows today staging).map Order.order_id).count oid ≤ 1 :=
    of_decide_eq_true this
  omega

/-- C2: when the staged rows of the current window contain some `order_id`
more than once, the duplicate check fails the run fatally before the Fact
Merge stage executes, leaving the fact store unchanged. -/
theorem C2_duplicates_fail_before_fact_merge (today : Nat) (now : String)
    (dimC : String → Option String) (dimP : String → Option DimProduct)
    (st : PipelineState) (mid : List GCSObject) (oid : String)
    (hdup : 2 ≤ ((todaysRows today
        (st.staging ++ loadedOrders st.landing)).map Order.order_id).count oid) :
    (runPipeline today now dimC dimP st mid).failed = true
    ∧ (runPipeline today now dimC dimP st mid).reachedFactMerge = false
    ∧ (runPipeline today now dimC dimP st mid).state.facts = st.facts := by
  have hchk := checkDuplicates_eq_false_of_dup hdup
  unfold runPipeline
  cases hs : sensorSuccess st.landing with
  | false => simp
  | true => simp [hchk]

/-- Witness for C2: a concrete window staging the same order twice fails
without touching the fact store. -/
theorem C2_duplicates_fail_before_fact_merge_witness :
    (runPipeline 0 "n" dimC0 dimP0 ⟨[objA], [], [ordO1], [], [], []⟩ []).failed = true
    ∧ (runPipeline 0 "n" dimC0 dimP0
        ⟨[objA], [], [ordO1], [], [], []⟩ []).reachedFactMerge = false
    ∧ (runPipeline 0 "n" dimC0 dimP0 ⟨[objA], [], [ordO1], [], [], []⟩ []).state.facts = [] :=
  C2_duplicates_fail_before_fact_merge 0 "n" dimC0 dimP0
    ⟨[objA], [], [ordO1], [], [], []⟩ [] "O1" (by decide)

/-- The number of findings with a given `order_id` in a list. -/
def countFindingOrderId (oid : String) (l : List QualityFinding) : Nat :=
  l.countP fun f => f.order_id == oid

/-- Modelled from the spec's words for the consistency check's
`calculated_total` — `round(sum(quantity*unit_price over its line items),
2)` — read as the mathematical sum, which is `0` for an order with zero
line items.  The source's SQL subselect (`calculatedTotal`) instead yields
`NULL` there; this definition exists only to state claims the way the spec
writes them. -/
def specCalculatedTotal (o : Order) : ℚ :=
  round2 (itemsTotal o.items)

lemma countP_findings_aux (now oid : String) (l : List Order) :
    ((l.filterMap fun o => match calculatedTotal o with
      | none => none
      | some ct =>
        if |ct - o.total_amount| > tol then some (mismatchFinding now o ct)
        else none).countP fun f => f.order_id == oid)
      = l.countP fun o => isMismatch o && (o.order_id == oid) := by
  induction l with
  | nil => rfl
  | cons o l ih =>
    cases hct : calculatedTotal o with
    | none =>
      have hm : isMismatch o = false := by
        unfold isMismatch
        rw [hct]
      simp only [List.filterMap_cons, hct, List.countP_cons, hm, Bool.false_and]
      rw [ih]
      simp
    | some ct =>
      by_cases hgt : |ct - o.total_amount| > tol
      · have hm : isMismatch o = true := by
          unfold isMismatch
          rw [hct]
          exact decide_eq_true hgt
        simp only [List.filterMap_cons, hct, if_pos hgt, List.countP_cons, hm, Bool.true_and]
        rw [ih]
        have hrfl : (mismatchFinding now o ct).order_id = o.order_id := rfl
        rw [hrfl]
      · have hm : isMismatch o = false := by
          unfold isMismatch
          rw [hct]
          exact decide_eq_false hgt
        simp only [List.filterMap_cons, hct, if_neg hgt, List.countP_cons, hm, Bool.false_and]
        rw [ih]
        simp

lemma countFindingOrderId_eq (today : Nat) (now oid : String) (staging : List Order) :
    countFindingOrderId oid (mismatchFindings today now staging)
      = (todaysRows today staging).countP fun o => isMismatch o && (o.order_id == oid) := by
  unfold countFindingOrderId mismatchFindings
  exact countP_findings_aux now oid (todaysRows today staging)

/-- C3 counterexample: an order with zero line items and recorded total
`100` satisfies the claim's mismatch predicate (the rounded sum over its
line items is `0`, and `|0 - 100| > 0.01`), yet the check appends no
finding at all — SQL `SUM` over the empty `items` array is `NULL`, so the
`WHERE` filter drops the row. -/
theorem C3_counterexample :
    |specCalculatedTotal ordZero100 - ordZero100.total_amount| > tol
    ∧ calculatedTotal ordZero100 = none
    ∧ mismatchFindings 0 "t" [ordZero100] = [] := by decide

/-- C3 (amended): for every staged order of the current window with at
least one line item (`calculated_total` non-`NULL`), staged on exactly one
row, whose rounded item sum differs from `total_amount` by more than
`0.01`, exactly one finding with its `order_id` is appended, and that
finding is the `amount_mismatch`/`warning` row describing both values;
moreover the consistency check never blocks: whether the run reaches Fact
Merge depends only on the sensor and the duplicate check. -/
theorem C3_amount_mismatch_recorded_nonblocking (today : Nat) (now : String)
    (dimC : String → Option String) (dimP : String → Option DimProduct)
    (staging : List Order) (o : Order) (ct : ℚ)
    (hct : calculatedTotal o = some ct)
    (hgt : |ct - o.total_amount| > tol)
    (hone : (todaysRows today staging).filter (fun o2 => o2.order_id == o.order_id) = [o]) :
    countFindingOrderId o.order_id (mismatchFindings today now staging) = 1
    ∧ mismatchFinding now o ct ∈ mismatchFindings today now staging
    ∧ ∀ st mid, (runPipeline today now dimC dimP st mid).reachedFactMerge
        = (sensorSuccess st.landing
          && checkDuplicates today (st.staging ++ loadedOrders st.landing)) := by
  have hmism : isMismatch o = true := by
    unfold isMismatch
    rw [hct]
    exact decide_eq_true hgt
  have homem : o ∈ todaysRows today staging := by
    have : o ∈ (todaysRows today staging).filter fun o2 => o2.order_id == o.order_id := by
      rw [hone]; exact List.mem_singleton.2 rfl
    exact (List.mem_filter.1 this).1
  refine ⟨?_, ?_, ?_⟩
  · rw [countFindingOrderId_eq]
    have hsplit : ((todaysRows today staging).countP
        fun o2 => isMismatch o2 && (o2.order_id == o.order_id))
        = ((todaysRows today staging).filter
            fun o2 => o2.order_id == o.order_id).countP fun o2 => isMismatch o2 := by
      rw [List.countP_filter]
    rw [hsplit, hone, List.countP_cons]
    simp [hmism]
  · unfold mismatchFindings
    refine List.mem_filterMap.2 ⟨o, homem, ?_⟩
    simp [hct, hgt]
  · intro st mid
    unfold runPipeline
    cases hs : sensorSuccess st.landing with
    | false => simp
    | true =>
      cases hd : checkDuplicates today (st.staging ++ loadedOrders st.landing) with
      | false => simp [hd]
      | true => simp [hd]

/-- Witness for C3 at the concrete order `ordMism` (items sum `45`,
recorded total `50`): exactly one finding carries its id. -/
theorem C3_amount_mismatch_recorded_nonblocking_witness :
    countFindingOrderId "O3" (mismatchFindings 0 "t" [ordMism]) = 1 :=
  (C3_amount_mismatch_recorded_nonblocking 0 "t" dimC0 dimP0 [ordMism] ordMism 45
    (by decide) (by decide) (by decide)).1

/-- C5 counterexample: for a zero-line-item order with recorded total `50`,
the source computes a `NULL` `calculated_total` (not `0`) and records no
finding, although `total_amount` differs from `0` by more than `0.01`. -/
theorem C5_counterexample :
    ordZero50.items = []
    ∧ ¬ ordZero50.total_amount = 0
    ∧ |specCalculatedTotal ordZero50 - ordZero50.total_amount| > tol
    ∧ calculatedTotal ordZero50 = none
    ∧ mismatchFindings 0 "t" [ordZero50] = [] := by decide

/-- C5 (amended): for a staged order with zero line items the subselect
`SUM` over the empty `items` array is `NULL`, so the `WHERE` comparison is
`NULL` and no `amount_mismatch` finding is ever recorded for the order —
whatever its `total_amount`. -/
theorem C5_zero_item_orders_never_flagged (today : Nat) (now oid : String)
    (staging : List Order)
    (h : ∀ o ∈ staging, o.order_id = oid → o.items = []) :
    countFindingOrderId oid (mismatchFindings today now staging) = 0 := by
  rw [countFindingOrderId_eq]
  refine List.countP_eq_zero.2 fun o homem => ?_
  intro hand
  obtain ⟨hmism, hbeq⟩ := Bool.and_eq_true_iff.1 hand
  have hitems : o.items = [] :=
    h o (List.mem_filter.1 homem).1 (eq_of_beq hbeq)
  have : isMismatch o = false := by
    simp [isMismatch, calculatedTotal, hitems]
  rw [this] at hmism
  exact Bool.false_ne_true hmism

/-- Witness for C5: the concrete zero-item order `ordZero50` yields no
finding. -/
theorem C5_zero_item_orders_never_flagged_witness :
    countFindingOrderId "OZ2" (mismatchFindings 0 "t" [ordZero50]) = 0 :=
  C5_zero_item_orders_never_flagged 0 "t" "OZ2" [ordZero50] (by decide)

lemma countOrderId_factRows (dimC : String → Option String)
    (dimP : String → Option DimProduct) (o : Order) (oid : String) :
    countOrderId oid ((unnestLeft o.items).map (factRow dimC dimP o))
      = if (o.order_id == oid) = true then (unnestLeft o.items).length else 0 := by
  unfold countOrderId
  rw [List.countP_map]
  by_cases h : (o.order_id == oid) = true
  · rw [if_pos h]
    refine List.countP_eq_length.2 fun x _ => ?_
    show ((factRow dimC dimP o x).order_id == oid) = true
    rw [factRow_order_id]
    exact h
  · rw [if_neg h]
    refine List.countP_eq_zero.2 fun x _ => ?_
    show ¬ ((factRow dimC dimP o x).order_id == oid) = true
    rw [factRow_order_id]
    exact h

lemma countOrderId_transform (today : Nat) (dimC : String → Option String)
    (dimP : String → Option DimProduct) (facts : List FactOrderLine) (oid : String)
    (staging : List Order) :
    countOrderId oid (transformToFact today dimC dimP facts staging)
      = ((staging.filter fun o => ((o.order_timestamp.day == today)
            && !existsInFact facts o.order_id) && (o.order_id == oid)).map
          fun o => (unnestLeft o.items).length).sum := by
  induction staging with
  | nil => rfl
  | cons o l ih =>
    have hsplit : transformToFact today dimC dimP facts (o :: l)
        = (if ((o.order_timestamp.day == today) && !existsInFact facts o.order_id) = true
            then (unnestLeft o.items).map (factRow dimC dimP o) else [])
          ++ transformToFact today dimC dimP facts l := by
      unfold transformToFact
      rw [List.filter_cons]
      by_cases hp : ((o.order_timestamp.day == today) && !existsInFact facts o.order_id) = true
      · rw [if_pos hp, if_pos hp, List.flatMap_cons]
      · rw [if_neg hp, if_neg hp, List.nil_append]
    unfold countOrderId at ih ⊢
    rw [hsplit, List.countP_append, ih, List.filter_cons]
    by_cases hp : ((o.order_timestamp.day == today) && !existsInFact facts o.order_id) = true
    · by_cases hid : (o.order_id == oid) = true
      · have hq : (((o.order_timestamp.day == today) && !existsInFact facts o.order_id)
            && (o.order_id == oid)) = true := by rw [hp, hid]; rfl
        rw [if_pos hp, if_pos hq, List.map_cons, List.sum_cons]
        have hc := countOrderId_factRows dimC dimP o oid
        unfold countOrderId at hc
        rw [hc, if_pos hid]
      · have hq : ¬ ((((o.order_timestamp.day == today) && !existsInFact facts o.order_id)
            && (o.order_id == oid)) = true) := by
          rw [hp]
          simpa using hid
        rw [if_pos hp, if_neg hq]
        have hc := countOrderId_factRows dimC dimP o oid
        unfold countOrderId at hc
        rw [hc, if_neg hid, Nat.zero_add]
    · have hq : ¬ ((((o.order_timestamp.day == today) && !existsInFact facts o.order_id)
          && (o.order_id == oid)) = true) := by
        intro hand
        exact hp (Bool.and_eq_true_iff.1 hand).1
      rw [if_neg hp, if_neg hq, List.countP_nil, Nat.zero_add]

/-- C6 counterexample: a staged order with zero line items, absent from the
fact store, contributes one fact row (the `LEFT JOIN UNNEST` keeps the
order row with `NULL` item columns), not zero as the claim states. -/
theorem C6_counterexample :
    ordZero100.items.length = 0
    ∧ (transformToFact 0 dimC0 dimP0 [] [ordZero100]).length = 1 := by decide

/-- C6 (amended): for every order of the current window staged on exactly
one row and absent from the fact store, the insert emits one fact row per
line item when the order has at least one line item, and one row with
`NULL` item columns when it has none — `max 1 (number of line items)` rows
in total. -/
theorem C6_one_row_per_line_item (today : Nat) (dimC : String → Option String)
    (dimP : String → Option DimProduct) (facts : List FactOrderLine)
    (staging : List Order) (o : Order)
    (hone : (todaysRows today staging).filter (fun o2 => o2.order_id == o.order_id) = [o])
    (hex : existsInFact facts o.order_id = false) :
    countOrderId o.order_id (transformToFact today dimC dimP facts staging)
      = max 1 o.items.length := by
  rw [countOrderId_transform]
  have hfil : (staging.filter fun o2 => ((o2.order_timestamp.day == today)
        && !existsInFact facts o2.order_id) && (o2.order_id == o.order_id))
      = (todaysRows today staging).filter fun o2 => o2.order_id == o.order_id := by
    unfold todaysRows
    rw [List.filter_filter]
    refine List.filter_congr fun o2 _ => ?_
    by_cases hid : (o2.order_id == o.order_id) = true
    · have : o2.order_id = o.order_id := eq_of_beq hid
      rw [hid]
      rw [this, hex]
      by_cases hd : (o2.order_timestamp.day == today) = true
      · rw [hd]
        rfl
      · have : (o2.order_timestamp.day == today) = false := Bool.eq_false_iff.2 hd
        rw [this]
        rfl
    · have hid' : (o2.order_id == o.order_id) = false := Bool.eq_false_iff.2 hid
      rw [hid']
      simp
  rw [hfil, hone, List.map_cons, List.sum_cons, List.map_nil, List.sum_nil,
    Nat.add_zero, unnestLeft_length]

/-- Witness for C6: the two-item order `ordO1`, absent from an empty fact
store, contributes two fact rows. -/
theorem C6_one_row_per_line_item_witness :
    countOrderId "O1" (transformToFact 0 dimC0 dimP0 [] [ordO1, ordO2])
      = max 1 ordO1.items.length :=
  C6_one_row_per_line_item 0 dimC0 dimP0 [] [ordO1, ordO2] ordO1
    (by decide) (by decide)

/-- C4: the Aggregate Updater evaluated on the fact rows the transform
itself produces for order `O1` (two line items, `total_amount = 100`) and
order `O2` (one line item, `total_amount = 40`), all in the same hour.
`SUM(total_amount)`/`AVG(total_amount)` range over the per-line-item fact
rows, so `O1`'s total is counted once per line item: the stored revenue is
`240` and the stored average `80`, while the claim's once-per-distinct-order
reading demands `140` and `70`. -/
theorem C4_revenue_multiplied_by_line_items :
    (updateHourlyAgg 0 "n" (transformToFact 0 dimC0 dimP0 [] [ordO1, ordO2]) []).map
        (fun m => (m.total_orders, m.total_revenue, m.avg_order_value))
      = [(2, 240, 80)]
    ∧ ¬ (240 : ℚ) = 100 + 40
    ∧ ¬ (80 : ℚ) = (100 + 40) / 2 := by decide

lemma todaysRows_idem (today : Nat) (staging : List Order) :
    todaysRows today (todaysRows today staging) = todaysRows today staging := by
  unfold todaysRows
  rw [List.filter_filter]
  exact List.filter_congr fun o _ => by
    cases h : o.order_timestamp.day == today <;> simp [h]

/-- C9: every stage restricts itself to rows whose `order_timestamp` falls
on the current date — the duplicate check, the consistency check and the
fact transform are unchanged by first dropping staged rows dated on other
days, and the hourly aggregation source is unchanged by first dropping
fact rows dated on other days. -/
theorem C9_stages_scoped_to_current_date (today : Nat) (now : String)
    (dimC : String → Option String) (dimP : String → Option DimProduct)
    (staging : List Order) (facts factStore : List FactOrderLine) :
    checkDuplicates today (todaysRows today staging) = checkDuplicates today staging
    ∧ mismatchFindings today now (todaysRows today staging)
        = mismatchFindings today now staging
    ∧ transformToFact today dimC dimP factStore (todaysRows today staging)
        = transformToFact today dimC dimP factStore staging
    ∧ hourlySource today now (facts.filter fun f => f.order_timestamp.day == today)
        = hourlySource today now facts := by
  refine ⟨?_, ?_, ?_, ?_⟩
  · unfold checkDuplicates
    rw [todaysRows_idem]
  · unfold mismatchFindings
    rw [todaysRows_idem]
  · unfold transformToFact todaysRows
    rw [List.filter_filter]
    congr 1
    refine List.filter_congr fun o _ => ?_
    cases hd : o.order_timestamp.day == today <;> simp [hd]
  · unfold hourlySource
    rw [List.filter_filter]
    have : (facts.filter fun f =>
          (f.order_timestamp.day == today) && (f.order_timestamp.day == today))
        = facts.filter fun f => f.order_timestamp.day == today :=
      List.filter_congr fun f _ => by
        cases hd : f.order_timestamp.day == today <;> simp [hd]
    rw [this]

/-- C10: an object under the landing area whose name does not end in
`.json` makes the sensor succeed, is never part of the load set, is left in
place by the whole run (the archiver skips it), and therefore makes the
next run's sensor succeed again. -/
theorem C10_non_json_object_persists_and_triggers (today : Nat) (now : String)
    (dimC : String → Option String) (dimP : String → Option DimProduct)
    (st : PipelineState) (mid : List GCSObject) (b : GCSObject)
    (hmem : b ∈ st.landing)
    (hpfx : strStartsWith gcsOrderPfx b.name = true)
    (hjson : strEndsWithJson b.name = false) :
    sensorSuccess st.landing = true
    ∧ b ∉ loadSet st.landing
    ∧ b ∈ (runPipeline today now dimC dimP st mid).state.landing
    ∧ sensorSuccess (runPipeline today now dimC dimP st mid).state.landing = true := by
  have hsens : sensorSuccess st.landing = true :=
    List.any_eq_true.2 ⟨b, hmem, hpfx⟩
  have hnotload : inLoadSet b = false := by
    unfold inLoadSet
    rw [hjson, Bool.and_false]
  have hfinal : b ∈ (runPipeline today now dimC dimP st mid).state.landing := by
    unfold runPipeline
    rw [if_pos hsens]
    by_cases hd : checkDuplicates today (st.staging ++ loadedOrders st.landing) = true
    · rw [if_pos hd]
      show b ∈ (st.landing ++ mid).filter fun b2 => !inLoadSet b2
      refine List.mem_filter.2 ⟨List.mem_append_left mid hmem, ?_⟩
      rw [hnotload]
      rfl
    · rw [if_neg hd]
      show b ∈ st.landing ++ mid
      exact List.mem_append_left mid hmem
  refine ⟨hsens, ?_, hfinal, List.any_eq_true.2 ⟨b, hfinal, hpfx⟩⟩
  intro hmem2
  have := (List.mem_filter.1 hmem2).2
  rw [hnotload] at this
  exact Bool.false_ne_true this

/-- Witness for C10: a concrete `.txt` object under `landing/orders/`
triggers the sensor, survives the run and triggers the next sensor. -/
theorem C10_non_json_object_persists_and_triggers_witness :
    sensorSuccess [objTxt] = true
    ∧ objTxt ∉ loadSet [objTxt]
    ∧ objTxt ∈ (runPipeline 0 "n" dimC0 dimP0
        ⟨[objTxt], [], [], [], [], []⟩ []).state.landing
    ∧ sensorSuccess (runPipeline 0 "n" dimC0 dimP0
        ⟨[objTxt], [], [], [], [], []⟩ []).state.landing = true :=
  C10_non_json_object_persists_and_triggers 0 "n" dimC0 dimP0
    ⟨[objTxt], [], [], [], [], []⟩ [] objTxt (by decide) (by decide) (by decide)

/-- C8: a run during which a second order file (`objB`) lands after the
loader enumerated its load set (`[objA]`).  The archiver re-lists the
bucket instead of reusing the load set, so it moves `objB` too — an object
that was never loaded: its order `O2` is absent from staging, yet the
object is gone from the landing area and sits in the archive, so the
archiver does not move "exactly the objects of that run's load set". -/
theorem C8_archiver_moves_object_outside_load_set :
    loadSet [objA] = [objA]
    ∧ (runPipeline 0 "20240101" dimC0 dimP0
        ⟨[objA], [], [], [], [], []⟩ [objB]).failed = false
    ∧ (runPipeline 0 "20240101" dimC0 dimP0
        ⟨[objA], [], [], [], [], []⟩ [objB]).state.staging = [ordO1]
    ∧ ordO2 ∉ (runPipeline 0 "20240101" dimC0 dimP0
        ⟨[objA], [], [], [], [], []⟩ [objB]).state.staging
    ∧ (runPipeline 0 "20240101" dimC0 dimP0
        ⟨[objA], [], [], [], [], []⟩ [objB]).state.landing = []
    ∧ (runPipeline 0 "20240101" dimC0 dimP0
        ⟨[objA], [], [], [], [], []⟩ [objB]).state.archive.map GCSObject.name
        = ["archive/20240101/orders/a.json", "archive/20240101/orders/b.json"]
    ∧ (runPipeline 0 "20240101" dimC0 dimP0
        ⟨[objA], [], [], [], [], []⟩ [objB]).state.archive.map GCSObject.content
        = [[ordO1], [ordO2]] := by decide

lemma hourlyRow_metric_hour (now : String) (rows : List FactOrderLine) (h : Timestamp) :
    (hourlyRow now rows h).metric_hour = h := rfl

lemma hourlySource_keys (today : Nat) (now : String) (facts : List FactOrderLine) :
    (hourlySource today now facts).map HourlyMetric.metric_hour
      = hourKeys (facts.filter fun f => f.order_timestamp.day == today) := by
  show ((hourKeys (facts.filter fun f => f.order_timestamp.day == today)).map
      (hourlyRow now (facts.filter fun f => f.order_timestamp.day == today))).map
      HourlyMetric.metric_hour = _
  rw [List.map_map]
  have hcomp : (HourlyMetric.metric_hour
      ∘ hourlyRow now (facts.filter fun f => f.order_timestamp.day == today))
      = fun h => h := funext fun h => rfl
  rw [hcomp]
  exact List.map_id' _

lemma hourlySource_keys_nodup (today : Nat) (now : String) (facts : List FactOrderLine) :
    ((hourlySource today now facts).map HourlyMetric.metric_hour).Nodup := by
  rw [hourlySource_keys]
  exact List.nodup_dedup _

lemma find?_key_eq_some {l : List HourlyMetric} {s : HourlyMetric} {k : Timestamp}
    (hmem : s ∈ l) (hnd : (l.map HourlyMetric.metric_hour).Nodup)
    (hk : s.metric_hour = k) :
    l.find? (fun x => decide (x.metric_hour = k)) = some s := by
  induction l with
  | nil => cases hmem
  | cons a l ih =>
    rw [List.map_cons, List.nodup_cons] at hnd
    obtain ⟨hna, hnd2⟩ := hnd
    rcases List.mem_cons.1 hmem with heq | hmem2
    · subst heq
      exact List.find?_cons_of_pos _ (by simp [hk])
    · have hkmem : k ∈ l.map HourlyMetric.metric_hour := by
        rw [← hk]
        exact List.mem_map_of_mem _ hmem2
      have hne : ¬ a.metric_hour = k := fun he => hna (he ▸ hkmem)
      rw [List.find?_cons_of_neg _ (by simp [hne])]
      exact ih hmem2 hnd2

lemma filter_key_singleton {l : List HourlyMetric} {t0 : HourlyMetric} {k : Timestamp}
    (hmem : t0 ∈ l) (hnd : (l.map HourlyMetric.metric_hour).Nodup)
    (hk : t0.metric_hour = k) :
    l.filter (fun t => decide (t.metric_hour = k)) = [t0] := by
  induction l with
  | nil => cases hmem
  | cons a l ih =>
    rw [List.map_cons, List.nodup_cons] at hnd
    obtain ⟨hna, hnd2⟩ := hnd
    rcases List.mem_cons.1 hmem with heq | hmem2
    · subst heq
      rw [List.filter_cons_of_pos (by simp [hk])]
      have hrest : l.filter (fun t => decide (t.metric_hour = k)) = [] := by
        refine List.filter_eq_nil_iff.2 fun t ht => ?_
        simp only [decide_eq_true_eq]
        intro he
        exact hna (by rw [hk, ← he]; exact List.mem_map_of_mem _ ht)
      rw [hrest]
    · have hkmem : k ∈ l.map HourlyMetric.metric_hour := by
        rw [← hk]
        exact List.mem_map_of_mem _ hmem2
      have hne : ¬ a.metric_hour = k := fun he => hna (he ▸ hkmem)
      rw [List.filter_cons_of_neg (by simp [hne])]
      exact ih hmem2 hnd2

/-- C7: after the Aggregate Updater's `MERGE`, the stored row of every hour
present in the current window equals the fresh recomputation from the fact
store — inserted when the key was absent, overwritten (all metric fields,
with `updated_at` refreshed) when present, never accumulated with the old
values. -/
theorem C7_hourly_upsert_overwrites (today : Nat) (now : String)
    (facts : List FactOrderLine) (hourly : List HourlyMetric) (s : HourlyMetric)
    (hnd : (hourly.map HourlyMetric.metric_hour).Nodup)
    (hmem : s ∈ hourlySource today now facts) :
    (updateHourlyAgg today now facts hourly).filter
        (fun t => decide (t.metric_hour = s.metric_hour)) = [s] := by
  have hsrcnd := hourlySource_keys_nodup today now facts
  have hkeyf : ∀ t : HourlyMetric,
      (((hourlySource today now facts).find? fun s2 =>
          decide (s2.metric_hour = t.metric_hour)).getD t).metric_hour
        = t.metric_hour := by
    intro t
    cases hf : (hourlySource today now facts).find? fun s2 =>
        decide (s2.metric_hour = t.metric_hour) with
    | none => rfl
    | some u =>
      have hu := List.find?_some hf
      simp only [decide_eq_true_eq] at hu
      simpa using hu
  show ((hourly.map fun t => ((hourlySource today now facts).find? fun s2 =>
          decide (s2.metric_hour = t.metric_hour)).getD t)
      ++ (hourlySource today now facts).filter fun s2 =>
          !hourly.any fun t => decide (t.metric_hour = s2.metric_hour)).filter
      (fun t => decide (t.metric_hour = s.metric_hour)) = [s]
  rw [List.filter_append, List.filter_map]
  have hcongr : hourly.filter ((fun t => decide (t.metric_hour = s.metric_hour))
        ∘ fun t => ((hourlySource today now facts).find? fun s2 =>
            decide (s2.metric_hour = t.metric_hour)).getD t)
      = hourly.filter fun t => decide (t.metric_hour = s.metric_hour) :=
    List.filter_congr fun t _ => by
      simp only [Function.comp]
      rw [hkeyf t]
  rw [hcongr]
  by_cases hany : (hourly.any fun t => decide (t.metric_hour = s.metric_hour)) = true
  · obtain ⟨t0, ht0mem, ht0key⟩ := List.any_eq_true.1 hany
    have ht0 : t0.metric_hour = s.metric_hour := of_decide_eq_true ht0key
    rw [filter_key_singleton ht0mem hnd ht0]
    simp only [List.map_cons, List.map_nil]
    have hfind : (hourlySource today now facts).find? (fun s2 =>
        decide (s2.metric_hour = t0.metric_hour)) = some s := by
      rw [ht0]
      exact find?_key_eq_some hmem hsrcnd rfl
    have hins : ((hourlySource today now facts).filter fun s2 =>
          !hourly.any fun t => decide (t.metric_hour = s2.metric_hour)).filter
          (fun t => decide (t.metric_hour = s.metric_hour)) = [] := by
      refine List.filter_eq_nil_iff.2 fun s2 hs2 => ?_
      simp only [decide_eq_true_eq]
      intro hkeq
      have hq := (List.mem_filter.1 hs2).2
      rw [hkeq] at hq
      rw [hany] at hq
      simp at hq
    rw [hfind, hins]
    rfl
  · have hany' : (hourly.any fun t => decide (t.metric_hour = s.metric_hour)) = false :=
      Bool.eq_false_iff.2 hany
    have hmf : hourly.filter (fun t => decide (t.metric_hour = s.metric_hour)) = [] := by
      refine List.filter_eq_nil_iff.2 fun t ht => ?_
      intro hkeq
      exact hany (List.any_eq_true.2 ⟨t, ht, hkeq⟩)
    rw [hmf, List.map_nil, List.nil_append, List.filter_filter]
    have hcongr2 : ((hourlySource today now facts).filter
          fun s2 => decide (s2.metric_hour = s.metric_hour)
            && !hourly.any fun t => decide (t.metric_hour = s2.metric_hour))
        = (hourlySource today now facts).filter
          fun s2 => decide (s2.metric_hour = s.metric_hour) := by
      refine List.filter_congr fun s2 _ => ?_
      by_cases hk2 : s2.metric_hour = s.metric_hour
      · rw [hk2, hany']
        simp
      · have hk2' : decide (s2.metric_hour = s.metric_hour) = false := decide_eq_false hk2
        rw [hk2']
        simp
    rw [hcongr2]
    exact filter_key_singleton hmem hsrcnd rfl

/-- The hourly aggregate row the updater computes for hour `(0, 10)` of the
`ordO1`/`ordO2` fixture fact store. -/
def aggRowW : HourlyMetric := ⟨⟨0, 10, 0⟩, 2, 240, 80, 2, "n"⟩

/-- Witness for C7 at a concrete fact store and an empty aggregate store:
the upserted row for the window's hour is the fresh recomputation. -/
theorem C7_hourly_upsert_overwrites_witness :
    (updateHourlyAgg 0 "n" (transformToFact 0 dimC0 dimP0 [] [ordO1, ordO2]) []).filter
        (fun t => decide (t.metric_hour = aggRowW.metric_hour)) = [aggRowW] :=
  C7_hourly_upsert_overwrites 0 "n" (transformToFact 0 dimC0 dimP0 [] [ordO1, ordO2])
    [] aggRowW (by decide) (by decide)

end

end EcommPipeline
